import Mathlib

/-!
# Verification of the gcal-mcp core logic

A shallow embedding of the core logic of the `gcal-mcp` repository:

* `src/calendar_mcp/server.py` — `_slim_response`, `_parse_json`, `_error_response`;
* `src/calendar_mcp/tools/events.py` — `_parse_datetime` and the event tools;
* `src/calendar_mcp/tools/freebusy.py` — `query_freebusy`;
* `src/gcal_mcp/tools/calendars.py` — the calendar tools.

Python's JSON-like data (the trees produced by `model_dump`) are modelled by
the inductive type `JValue`: mappings become ordered association lists (Python
dicts preserve insertion order and have distinct keys), numbers are modelled as
integers (no claim involves a non-integral number), and the remote SDK client
is abstracted as a function argument returning `Except String JValue` — an
exception raised by the client with message `m` is `Except.error m`.

Tool results are modelled as the JSON *document* each tool serializes with
`json.dumps(…, indent=2)`; the serialization itself carries no logic and is
elided.
-/

/-- The plain-structure form of a Python JSON-like value (`None`, `bool`,
`int`, `str`, `list`, `dict`).  Dicts are ordered association lists. -/
inductive JValue where
  | null : JValue
  | bool (b : Bool) : JValue
  | num (n : Int) : JValue
  | str (s : String) : JValue
  | arr (xs : List JValue) : JValue
  | obj (fields : List (String × JValue)) : JValue

/-- `value is None` in Python. -/
def isNull : JValue → Bool
  | .null => true
  | _ => false

/-- Python `value == ""`: only the empty string compares equal to `""`. -/
def pyEqEmptyStr : JValue → Bool
  | .str s => s == ""
  | _ => false

/-- Python `value == []`: only an empty list compares equal to `[]`. -/
def pyEqEmptyList : JValue → Bool
  | .arr xs => xs.isEmpty
  | _ => false

/-- Python `value == True`: `True == True` and `1 == True` (bools are ints). -/
def pyEqTrue : JValue → Bool
  | .bool b => b
  | .num n => n == 1
  | _ => false

/-- Python `value == 0`: `0 == 0` and `False == 0` (bools are ints). -/
def pyEqZero : JValue → Bool
  | .bool b => !b
  | .num n => n == 0
  | _ => false

/-- Python `value == {"useDefault": True} or value == {"use_default": True}`
for a dict `value`: a one-entry dict whose single key is either spelling and
whose value compares equal to `True`. -/
def isDefaultReminderValue : JValue → Bool
  | .obj [(k, v)] => (k == "useDefault" || k == "use_default") && pyEqTrue v
  | _ => false

/-- The per-field drop test of `_slim_response`: the disjunction of the
`continue` guards in the `for key, value in data.items()` loop of
`src/calendar_mcp/server.py` (null, empty string/list, the always-strip keys
`etag`/`kind`, `iCalUID`, the default-reminders sentinel, `sequence == 0`,
and the redundant `colorId is None` check). -/
def dropField (k : String) (v : JValue) : Bool :=
  isNull v || pyEqEmptyStr v || pyEqEmptyList v ||
  k == "etag" || k == "kind" || k == "iCalUID" ||
  (k == "reminders" && isDefaultReminderValue v) ||
  (k == "sequence" && pyEqZero v) ||
  (k == "colorId" && isNull v)

mutual

/-- `_slim_response` from `src/calendar_mcp/server.py`: lists are mapped
element-wise, non-dict non-list scalars pass through, dicts are rebuilt key by
key, dropping a field when one of the `continue` guards fires and otherwise
recursing into the kept value. -/
def slimResponse : JValue → JValue
  | .arr xs => .arr (slimList xs)
  | .obj fs => .obj (slimObj fs)
  | .null => .null
  | .bool b => .bool b
  | .num n => .num n
  | .str s => .str s

/-- Element-wise slimming of a list (`[_slim_response(item) for item in data]`). -/
def slimList : List JValue → List JValue
  | [] => []
  | x :: xs => slimResponse x :: slimList xs

/-- The dict-rebuilding loop of `_slim_response`: drop a field when a guard
fires, otherwise keep `(key, _slim_response(value))`, preserving order. -/
def slimObj : List (String × JValue) → List (String × JValue)
  | [] => []
  | (k, v) :: rest =>
    if dropField k v then slimObj rest
    else (k, slimResponse v) :: slimObj rest

end

example : slimResponse (.obj [("id", .str "e1"), ("etag", .str "x"), ("sequence", .num 0)])
    = .obj [("id", .str "e1")] := rfl

example : slimResponse (.obj [("reminders", .obj [("useDefault", .bool true)])]) = .obj [] := rfl

/-- The error taxonomy of the core (spec §7): a parameter-decode failure
carrying the parameter name and the underlying decoder message, a missing
required instant, and a malformed datetime string carrying the original
text.  Remote-client failures stay plain message strings. -/
inductive ToolError where
  | paramDecode (param : String) (underlying : String) : ToolError
  | missingRequiredField : ToolError
  | datetimeParse (text : String) : ToolError

/-- `str(exc)` for each core error.  `paramDecode` reproduces the message
built in `_parse_json` (`Invalid JSON for parameter '<name>': <exc>`);
`datetimeParse` reproduces CPython's `fromisoformat` message; the
`missingRequiredField` text is modelled from the spec (the server-side parser
that raises it is not under `src/`). -/
def errMessage : ToolError → String
  | .paramDecode n e => "Invalid JSON for parameter \x27" ++ n ++ "\x27: " ++ e
  | .missingRequiredField => "Missing required datetime value"
  | .datetimeParse s => "Invalid isoformat string: \x27" ++ s ++ "\x27"

/-- Document form of `_error_response` from `src/calendar_mcp/server.py`:
`{"error": True, "message": str(exc)}` (its `json.dumps` is elided). -/
def errorResponse (msg : String) : JValue :=
  .obj [("error", .bool true), ("message", .str msg)]

/-- A Python `datetime`: a wall-clock reading plus an optional fixed UTC
offset in seconds (`tzinfo = None` is modelled as `tz = none`; `timezone.utc`
is `tz = some 0`). -/
structure PyDatetime where
  year : Nat
  month : Nat
  day : Nat
  hour : Nat
  minute : Nat
  second : Nat
  tz : Option Int
deriving DecidableEq, Repr

/-- The numeric value of a decimal digit character, if it is one. -/
def digitVal : Char → Option Nat :=
  fun c => if c.isDigit then some (c.toNat - 48) else none

/-- A two-digit decimal field. -/
def twoDigits (a b : Char) : Option Nat := do
  let x ← digitVal a
  let y ← digitVal b
  pure (10 * x + y)

/-- A four-digit decimal field. -/
def fourDigits (a b c d : Char) : Option Nat := do
  let x ← digitVal a
  let y ← digitVal b
  let z ← digitVal c
  let w ← digitVal d
  pure (1000 * x + 100 * y + 10 * z + w)

/-- The trailing UTC-offset part of an ISO-8601 datetime string: empty (no
offset), `Z` (UTC), or `±HH:MM`. -/
def parseOffsetPart : List Char → Option (Option Int)
  | [] => some none
  | ['Z'] => some (some 0)
  | [sign, h1, h2, ':', m1, m2] =>
    match twoDigits h1 h2, twoDigits m1 m2 with
    | some h, some m =>
      if h < 24 ∧ m < 60 then
        if sign = '+' then some (some (Int.ofNat (h * 3600 + m * 60)))
        else if sign = '-' then some (some (-(Int.ofNat (h * 3600 + m * 60))))
        else none
      else none
    | _, _ => none
  | _ => none

/-- Models Python's `datetime.fromisoformat` on the subset of complete
`YYYY-MM-DDTHH:MM:SS[Z|±HH:MM]` strings this server handles (fractional
seconds and date-only forms are outside every claim).  A malformed string
raises `ValueError("Invalid isoformat string: '<text>'")`, modelled as
`ToolError.datetimeParse`. -/
def fromisoformat (s : String) : Except ToolError PyDatetime :=
  match s.toList with
  | y1 :: y2 :: y3 :: y4 :: '-' :: mo1 :: mo2 :: '-' :: d1 :: d2 :: sep ::
      h1 :: h2 :: ':' :: mi1 :: mi2 :: ':' :: s1 :: s2 :: rest =>
    match fourDigits y1 y2 y3 y4, twoDigits mo1 mo2, twoDigits d1 d2,
        twoDigits h1 h2, twoDigits mi1 mi2, twoDigits s1 s2,
        parseOffsetPart rest with
    | some y, some mo, some d, some h, some mi, some sec, some off =>
      if (sep = 'T' ∨ sep = ' ') ∧ 1 ≤ mo ∧ mo ≤ 12 ∧ 1 ≤ d ∧ d ≤ 31 ∧
          h < 24 ∧ mi < 60 ∧ sec < 60 then
        .ok ⟨y, mo, d, h, mi, sec, off⟩
      else .error (.datetimeParse s)
    | _, _, _, _, _, _, _ => .error (.datetimeParse s)
  | _ => .error (.datetimeParse s)

/-- `_parse_datetime` from `src/calendar_mcp/tools/events.py`: `None` passes
through; otherwise `datetime.fromisoformat`, and a naive result gets
`tzinfo=timezone.utc` (`dt.replace(tzinfo=timezone.utc)` — offset 0). -/
def parseDatetime (value : Option String) : Except ToolError (Option PyDatetime) :=
  match value with
  | none => .ok none
  | some s =>
    match fromisoformat s with
    | .error e => .error e
    | .ok dt => .ok (some (if dt.tz = none then { dt with tz := some 0 } else dt))

/-- Modelled from the spec: the server-side instant parser
`_parse_datetime(value, required=False)` that `src/calendar_mcp/tools/freebusy.py`
imports from `..server` is not present under `src/` (only its caller is).
Per spec §4.1, `parse_instant(text, required)` returns null for a null text
when not required, fails with a `MissingRequiredFieldError` for a null text
when required, and otherwise parses like the event-side datetime parser
(naive results are pinned to UTC). -/
def parseInstant (value : Option String) (required : Bool) :
    Except ToolError (Option PyDatetime) :=
  match value with
  | none => if required then .error .missingRequiredField else .ok none
  | some s =>
    match fromisoformat s with
    | .error e => .error e
    | .ok dt => .ok (some (if dt.tz = none then { dt with tz := some 0 } else dt))

/-- A raw tool parameter that may arrive absent/null, as JSON text, or as an
already-structured value (`str | dict | list | None` in the source). -/
inductive ParamValue where
  | null : ParamValue
  | text (s : String) : ParamValue
  | structured (v : JValue) : ParamValue

/-- `_parse_json` from `src/calendar_mcp/server.py`, with Python's
`json.loads` abstracted as the function argument `jloads`: null passes
through, an already-structured dict/list is returned unchanged, text is
JSON-decoded, and a decode failure becomes
`ValueError("Invalid JSON for parameter '<name>': <exc>")`. -/
def parseJsonParam (jloads : String → Except String JValue)
    (value : ParamValue) (name : String) : Except ToolError (Option JValue) :=
  match value with
  | .null => .ok none
  | .structured v => .ok (some v)
  | .text s =>
    match jloads s with
    | .ok v => .ok (some v)
    | .error e => .error (.paramDecode name e)

example : parseInstant none true = .error .missingRequiredField := rfl

example : parseDatetime (some "2024-06-15T10:00:00")
    = .ok (some ⟨2024, 6, 15, 10, 0, 0, some 0⟩) := rfl

example : parseDatetime (some "2024-06-15T10:00:00Z")
    = .ok (some ⟨2024, 6, 15, 10, 0, 0, some 0⟩) := rfl

example : parseDatetime (some "2024-06-15T10:00:00-06:00")
    = .ok (some ⟨2024, 6, 15, 10, 0, 0, some (-21600)⟩) := rfl

example : parseDatetime (some "not-a-date") = .error (.datetimeParse "not-a-date") := rfl

/-!
## The exposed tool operations

Each tool mirrors one `@mcp.tool()` function.  The remote SDK call inside the
`try:` block is abstracted as the `client` argument; every stage is evaluated
in the source's evaluation order, and the first failure falls into the
`except Exception` handler, i.e. produces `errorResponse` (with `str(exc)`
being `errMessage e` for a core error and the raw message for a client
failure).  Tools that need `json.loads` take it as the `jloads` argument.
-/

/-- `list_calendars` from `src/gcal_mcp/tools/calendars.py`. -/
def listCalendars (client : Bool → Bool → Nat → Except String JValue)
    (show_deleted show_hidden : Bool) (max_results : Nat) : JValue :=
  match client show_deleted show_hidden max_results with
  | .error m => errorResponse m
  | .ok data => slimResponse data

/-- `get_calendar` from `src/gcal_mcp/tools/calendars.py`. -/
def getCalendar (client : String → Except String JValue) (calendar_id : String) : JValue :=
  match client calendar_id with
  | .error m => errorResponse m
  | .ok data => slimResponse data

/-- `create_calendar` from `src/gcal_mcp/tools/calendars.py`. -/
def createCalendar
    (client : String → Option String → Option String → Option String → Except String JValue)
    (summary : String) (description time_zone location : Option String) : JValue :=
  match client summary description time_zone location with
  | .error m => errorResponse m
  | .ok data => slimResponse data

/-- `delete_calendar` from `src/gcal_mcp/tools/calendars.py`: on success the
fixed document `{"success": True, "deleted": calendar_id}`. -/
def deleteCalendar (client : String → Except String Unit) (calendar_id : String) : JValue :=
  match client calendar_id with
  | .error m => errorResponse m
  | .ok _ => .obj [("success", .bool true), ("deleted", .str calendar_id)]

/-- `clear_calendar` from `src/gcal_mcp/tools/calendars.py`: on success the
fixed document `{"success": True, "cleared": calendar_id}`. -/
def clearCalendar (client : String → Except String Unit) (calendar_id : String) : JValue :=
  match client calendar_id with
  | .error m => errorResponse m
  | .ok _ => .obj [("success", .bool true), ("cleared", .str calendar_id)]

/-- `list_events` from `src/calendar_mcp/tools/events.py`: `time_min` then
`time_max` are parsed (argument evaluation order), then the client is called
and the dumped events are slimmed. -/
def listEvents
    (client : String → Option PyDatetime → Option PyDatetime → Nat → Option String →
      Bool → Option String → Except String JValue)
    (calendar_id : String) (time_min time_max : Option String) (max_results : Nat)
    (q : Option String) (single_events : Bool) (order_by : Option String) : JValue :=
  match parseDatetime time_min with
  | .error e => errorResponse (errMessage e)
  | .ok tmin =>
    match parseDatetime time_max with
    | .error e => errorResponse (errMessage e)
    | .ok tmax =>
      match client calendar_id tmin tmax max_results q single_events order_by with
      | .error m => errorResponse m
      | .ok data => slimResponse data

/-- `get_event` from `src/calendar_mcp/tools/events.py`. -/
def getEvent (client : String → String → Except String JValue)
    (calendar_id event_id : String) : JValue :=
  match client calendar_id event_id with
  | .error m => errorResponse m
  | .ok data => slimResponse data

/-- `create_event` from `src/calendar_mcp/tools/events.py`: attendees are
decoded first (`_parse_json(attendees, "attendees")`), then `start` and `end`
are parsed in the call's argument order, then the client is called. -/
def createEvent (jloads : String → Except String JValue)
    (client : String → String → Option String → Option String → Option PyDatetime →
      Option PyDatetime → Option JValue → Option String → Except String JValue)
    (summary start_time end_time : String) (calendar_id : String)
    (description location : Option String) (attendees : ParamValue)
    (time_zone : Option String) : JValue :=
  match parseJsonParam jloads attendees "attendees" with
  | .error e => errorResponse (errMessage e)
  | .ok parsed_attendees =>
    match parseDatetime (some start_time) with
    | .error e => errorResponse (errMessage e)
    | .ok st =>
      match parseDatetime (some end_time) with
      | .error e => errorResponse (errMessage e)
      | .ok en =>
        match client calendar_id summary description location st en
            parsed_attendees time_zone with
        | .error m => errorResponse m
        | .ok data => slimResponse data

/-- `update_event` from `src/calendar_mcp/tools/events.py`: the full body is
decoded with `_parse_json(body, "body")`, then the client is called. -/
def updateEvent (jloads : String → Except String JValue)
    (client : String → String → Option JValue → Except String JValue)
    (calendar_id event_id : String) (body : ParamValue) : JValue :=
  match parseJsonParam jloads body "body" with
  | .error e => errorResponse (errMessage e)
  | .ok parsed_body =>
    match client calendar_id event_id parsed_body with
    | .error m => errorResponse m
    | .ok data => slimResponse data

/-- `patch_event` from `src/calendar_mcp/tools/events.py`: attendees decoded
first, then `start` and `end` parsed in argument order, then the client. -/
def patchEvent (jloads : String → Except String JValue)
    (client : String → String → Option String → Option String → Option String →
      Option PyDatetime → Option PyDatetime → Option JValue → Option String →
      Except String JValue)
    (calendar_id event_id : String) (summary start_time end_time : Option String)
    (description location : Option String) (attendees : ParamValue)
    (time_zone : Option String) : JValue :=
  match parseJsonParam jloads attendees "attendees" with
  | .error e => errorResponse (errMessage e)
  | .ok parsed_attendees =>
    match parseDatetime start_time with
    | .error e => errorResponse (errMessage e)
    | .ok st =>
      match parseDatetime end_time with
      | .error e => errorResponse (errMessage e)
      | .ok en =>
        match client calendar_id event_id summary description location st en
            parsed_attendees time_zone with
        | .error m => errorResponse m
        | .ok data => slimResponse data

/-- `delete_event` from `src/calendar_mcp/tools/events.py`: on success the
fixed document `{"success": True, "deleted": event_id}`. -/
def deleteEvent (client : String → String → Option String → Except String Unit)
    (calendar_id event_id : String) (send_updates : Option String) : JValue :=
  match client calendar_id event_id send_updates with
  | .error m => errorResponse m
  | .ok _ => .obj [("success", .bool true), ("deleted", .str event_id)]

/-- `move_event` from `src/calendar_mcp/tools/events.py`. -/
def moveEvent (client : String → String → String → Except String JValue)
    (calendar_id event_id destination_calendar_id : String) : JValue :=
  match client calendar_id event_id destination_calendar_id with
  | .error m => errorResponse m
  | .ok data => slimResponse data

/-- `list_event_instances` from `src/calendar_mcp/tools/events.py`. -/
def listEventInstances
    (client : String → String → Option PyDatetime → Option PyDatetime → Nat →
      Except String JValue)
    (calendar_id event_id : String) (time_min time_max : Option String)
    (max_results : Nat) : JValue :=
  match parseDatetime time_min with
  | .error e => errorResponse (errMessage e)
  | .ok tmin =>
    match parseDatetime time_max with
    | .error e => errorResponse (errMessage e)
    | .ok tmax =>
      match client calendar_id event_id tmin tmax max_results with
      | .error m => errorResponse m
      | .ok data => slimResponse data

/-- `query_freebusy` from `src/calendar_mcp/tools/freebusy.py`:
`calendar_ids` is decoded with `_parse_json`, then `time_min` and `time_max`
are parsed with the required-flag instant parser, then the client is called
and the response is slimmed. -/
def queryFreebusy (jloads : String → Except String JValue)
    (client : Option JValue → Option PyDatetime → Option PyDatetime → Option String →
      Option Nat → Option Nat → Except String JValue)
    (calendar_ids : ParamValue) (time_min time_max : Option String)
    (time_zone : Option String) (group_expansion_max calendar_expansion_max : Option Nat) :
    JValue :=
  match parseJsonParam jloads calendar_ids "calendar_ids" with
  | .error e => errorResponse (errMessage e)
  | .ok parsed_ids =>
    match parseInstant time_min true with
    | .error e => errorResponse (errMessage e)
    | .ok tmin =>
      match parseInstant time_max true with
      | .error e => errorResponse (errMessage e)
      | .ok tmax =>
        match client parsed_ids tmin tmax time_zone group_expansion_max
            calendar_expansion_max with
        | .error m => errorResponse m
        | .ok data => slimResponse data

/-!
## Claims
-/

/-- C3: the instant parser returns null for a null text when not required and
fails with the missing-required-field error when required; the event-side
parser also maps null to null; and the free/busy operation requires `time_min`
and `time_max` through the required flag, so a null value for either one makes
the whole operation return the error envelope for that failure. -/
theorem C3_required_instant :
    parseInstant none true = .error .missingRequiredField ∧
    parseInstant none false = .ok none ∧
    parseDatetime none = .ok none ∧
    (∀ jloads client v tmax tz g c,
      queryFreebusy jloads client (.structured v) none tmax tz g c
        = errorResponse (errMessage .missingRequiredField)) ∧
    (∀ jloads client v tz g c,
      queryFreebusy jloads client (.structured v) (some "2024-01-01T00:00:00Z") none tz g c
        = errorResponse (errMessage .missingRequiredField)) := by
  refine ⟨rfl, rfl, rfl, ?_, ?_⟩ <;> · intros; rfl

/-- C4: flexible parameter decoding — null decodes to null, a pre-structured
value is returned unchanged, text whose JSON decoding succeeds yields the same
value as passing the structure directly, and malformed text fails with a
decode error whose message names the parameter and embeds the underlying
decoder message. -/
theorem C4_flexible_decode :
    (∀ jloads n, parseJsonParam jloads .null n = .ok none) ∧
    (∀ jloads v n, parseJsonParam jloads (.structured v) n = .ok (some v)) ∧
    (∀ jloads s v n, jloads s = .ok v →
      parseJsonParam jloads (.text s) n = parseJsonParam jloads (.structured v) n) ∧
    (∀ jloads s e n, jloads s = .error e →
      parseJsonParam jloads (.text s) n = .error (.paramDecode n e) ∧
      errMessage (.paramDecode n e)
        = "Invalid JSON for parameter \x27" ++ n ++ "\x27: " ++ e) := by
  refine ⟨fun _ _ => rfl, fun _ _ _ => rfl, ?_, ?_⟩
  · intro jloads s v n h
    simp [parseJsonParam, h]
  · intro jloads s e n h
    exact ⟨by simp [parseJsonParam, h], rfl⟩

/-- A concrete stand-in for `json.loads` used to instantiate C4. -/
def jloadsTest : String → Except String JValue :=
  fun s =>
    if s = "[1]" then .ok (.arr [.num 1])
    else .error "Expecting value: line 1 column 1 (char 0)"

/-- Witness for C4 at a concrete decoder and inputs. -/
theorem C4_flexible_decode_witness :
    parseJsonParam jloadsTest (.text "[1]") "attendees"
      = parseJsonParam jloadsTest (.structured (.arr [.num 1])) "attendees" ∧
    parseJsonParam jloadsTest (.text "\x7bbad json[") "attendees"
      = .error (.paramDecode "attendees" "Expecting value: line 1 column 1 (char 0)") :=
  ⟨C4_flexible_decode.2.2.1 jloadsTest "[1]" (.arr [.num 1]) "attendees" (by rfl),
   (C4_flexible_decode.2.2.2 jloadsTest "\x7bbad json[" "Expecting value: line 1 column 1 (char 0)"
      "attendees" (by rfl)).1⟩

/-- C5: whenever the underlying ISO parse yields a value with no UTC offset,
both datetime parsers pin the offset to UTC (offset `0`, independent of any
host zone), and the string without an offset parses to the same instant as the
same string suffixed with `Z`. -/
theorem C5_default_utc :
    (∀ s dt, fromisoformat s = .ok dt → dt.tz = none →
      parseDatetime (some s) = .ok (some { dt with tz := some 0 }) ∧
      (∀ required, parseInstant (some s) required = .ok (some { dt with tz := some 0 }))) ∧
    parseDatetime (some "2024-06-15T10:00:00") = parseDatetime (some "2024-06-15T10:00:00Z") := by
  constructor
  · intro s dt h htz
    constructor
    · simp [parseDatetime, h, htz]
    · intro required
      simp [parseInstant, h, htz]
  · rfl

/-- Witness for C5: the example strings from the spec. -/
theorem C5_default_utc_witness :
    parseDatetime (some "2024-06-15T10:00:00")
      = .ok (some ⟨2024, 6, 15, 10, 0, 0, some 0⟩) :=
  (C5_default_utc.1 "2024-06-15T10:00:00" ⟨2024, 6, 15, 10, 0, 0, none⟩ rfl rfl).1

/-- C7: a `reminders` field equal to the use-default sentinel in either
spelling is dropped entirely, while `{"useDefault": false, "overrides": [...]}`
with non-empty overrides is kept with its overrides intact; sibling fields are
unaffected either way. -/
theorem C7_reminder_default :
    (∀ rest, slimObj (("reminders", JValue.obj [("useDefault", JValue.bool true)]) :: rest)
        = slimObj rest) ∧
    (∀ rest, slimObj (("reminders", JValue.obj [("use_default", JValue.bool true)]) :: rest)
        = slimObj rest) ∧
    (∀ ov rest, ov ≠ [] → slimList ov = ov →
      slimObj (("reminders",
          JValue.obj [("useDefault", JValue.bool false), ("overrides", JValue.arr ov)]) :: rest)
        = ("reminders",
            JValue.obj [("useDefault", JValue.bool false), ("overrides", JValue.arr ov)])
          :: slimObj rest) := by
  refine ⟨fun rest => rfl, fun rest => rfl, ?_⟩
  intro ov rest hne hfix
  cases ov with
  | nil => exact absurd rfl hne
  | cons a as =>
    have step : slimObj (("reminders",
        JValue.obj [("useDefault", JValue.bool false), ("overrides", JValue.arr (a :: as))])
          :: rest)
        = ("reminders", JValue.obj [("useDefault", JValue.bool false),
            ("overrides", JValue.arr (slimList (a :: as)))]) :: slimObj rest := rfl
    rw [step, hfix]

/-- Witness for C7: the overrides list from the repository's own test suite. -/
theorem C7_reminder_default_witness :
    slimObj [("reminders", JValue.obj [("useDefault", JValue.bool false),
        ("overrides", JValue.arr [JValue.obj [("method", JValue.str "popup"),
          ("minutes", JValue.num 10)]])])]
      = [("reminders", JValue.obj [("useDefault", JValue.bool false),
          ("overrides", JValue.arr [JValue.obj [("method", JValue.str "popup"),
            ("minutes", JValue.num 10)]])])] :=
  C7_reminder_default.2.2
    [JValue.obj [("method", JValue.str "popup"), ("minutes", JValue.num 10)]] []
    (by simp) rfl

/-- C9: an empty mapping slims to an empty mapping, and a mapping-valued field
that no drop rule matches is kept (as its slimmed form) — the emptiness rules
are evaluated on the value before recursion, so a nested mapping that only
becomes empty through slimming is still kept under its key. -/
theorem C9_empty_mapping :
    slimResponse (JValue.obj []) = JValue.obj [] ∧
    (∀ k g rest, dropField k (JValue.obj g) = false →
      slimObj ((k, JValue.obj g) :: rest) = (k, JValue.obj (slimObj g)) :: slimObj rest) := by
  refine ⟨rfl, ?_⟩
  intro k g rest h
  simp [slimObj, slimResponse, h]

/-- Witness for C9: `{"start": {"etag": "x"}}` keeps `start` as an empty
mapping even though its value becomes empty only after slimming. -/
theorem C9_empty_mapping_witness :
    slimObj [("start", JValue.obj [("etag", JValue.str "x")])]
      = [("start", JValue.obj [])] :=
  C9_empty_mapping.2 "start" [("etag", JValue.str "x")] [] rfl

/-- C10 fails as stated: a boolean `false` (or a numeric `0`) is *not* kept
under every key other than `sequence` — the always-strip keys drop any value,
so `{"kind": false}` loses its key even though `"kind" ≠ "sequence"`. -/
theorem C10_counterexample :
    slimResponse (JValue.obj [("kind", JValue.bool false)]) = JValue.obj [] ∧
    ("kind" : String) ≠ "sequence" :=
  ⟨rfl, by decide⟩

/-- C10 (amended): the emptiness rules drop exactly the null, empty-string and
empty-sequence values; numeric zero and boolean false are kept under every key
except `sequence` and the unconditional key rules (`etag`, `kind`, `iCalUID`,
which drop any value); under `sequence`, any value comparing equal to `0` —
numeric `0` or boolean `false` — is dropped. -/
theorem C10_zero_false_kept :
    (∀ v, (isNull v || pyEqEmptyStr v || pyEqEmptyList v) = true ↔
      (v = JValue.null ∨ v = JValue.str "" ∨ v = JValue.arr [])) ∧
    (∀ k rest, ¬(k = "etag" ∨ k = "kind" ∨ k = "iCalUID" ∨ k = "sequence") →
      slimObj ((k, JValue.num 0) :: rest) = (k, JValue.num 0) :: slimObj rest ∧
      slimObj ((k, JValue.bool false) :: rest) = (k, JValue.bool false) :: slimObj rest) ∧
    (∀ rest, slimObj (("sequence", JValue.num 0) :: rest) = slimObj rest) ∧
    (∀ rest, slimObj (("sequence", JValue.bool false) :: rest) = slimObj rest) := by
  refine ⟨?_, ?_, fun rest => rfl, fun rest => rfl⟩
  · intro v
    cases v with
    | null => simp [isNull, pyEqEmptyStr, pyEqEmptyList]
    | bool b => simp [isNull, pyEqEmptyStr, pyEqEmptyList]
    | num n => simp [isNull, pyEqEmptyStr, pyEqEmptyList]
    | str s => simp [isNull, pyEqEmptyStr, pyEqEmptyList]
    | arr xs => simp [isNull, pyEqEmptyStr, pyEqEmptyList, List.isEmpty_iff]
    | obj fs => simp [isNull, pyEqEmptyStr, pyEqEmptyList]
  · intro k rest hk
    push_neg at hk
    obtain ⟨h1, h2, h3, h4⟩ := hk
    have hz : dropField k (JValue.num 0) = false := by
      simp [dropField, isNull, pyEqEmptyStr, pyEqEmptyList, pyEqZero,
        isDefaultReminderValue, h1, h2, h3, h4]
    have hb : dropField k (JValue.bool false) = false := by
      simp [dropField, isNull, pyEqEmptyStr, pyEqEmptyList, pyEqZero,
        isDefaultReminderValue, h1, h2, h3, h4]
    exact ⟨by simp [slimObj, slimResponse, hz], by simp [slimObj, slimResponse, hb]⟩

/-- Witness for the amended C10: `attendeeCount` keeps a zero value while
`sequence` loses one. -/
theorem C10_zero_false_kept_witness :
    slimObj [("attendeeCount", JValue.num 0)] = [("attendeeCount", JValue.num 0)] ∧
    slimObj [("sequence", JValue.num 0)] = [] :=
  ⟨(C10_zero_false_kept.2.1 "attendeeCount" [] (by decide)).1,
   C10_zero_false_kept.2.2.1 []⟩

/-- `slimObj` is exactly: filter out the dropped fields, then slim each kept
value in place — hence key order is preserved. -/
theorem slimObj_eq_filter_map (fs : List (String × JValue)) :
    slimObj fs = (fs.filter fun kv => !dropField kv.1 kv.2).map
      (fun kv => (kv.1, slimResponse kv.2)) := by
  induction fs with
  | nil => rfl
  | cons kv rest ih =>
    obtain ⟨k, v⟩ := kv
    by_cases h : dropField k v
    · simp [slimObj, h, List.filter_cons, ih]
    · simp [slimObj, h, List.filter_cons, ih]

/-- The keys of a slimmed mapping form a sublist of the original keys. -/
theorem slimObj_keys_sublist (fs : List (String × JValue)) :
    ((slimObj fs).map Prod.fst).Sublist (fs.map Prod.fst) := by
  rw [slimObj_eq_filter_map, List.map_map]
  have : (Prod.fst ∘ fun kv : String × JValue => (kv.1, slimResponse kv.2)) = Prod.fst := by
    funext kv; rfl
  rw [this]
  exact (List.filter_sublist fs).map Prod.fst

/-- A field whose value is null, an empty string or an empty list is dropped,
so (keys being distinct, as in a Python dict) its key does not survive. -/
theorem keys_not_mem_slimObj :
    ∀ fs : List (String × JValue), (fs.map Prod.fst).Nodup →
      ∀ k v, (k, v) ∈ fs → dropField k v = true →
        k ∉ (slimObj fs).map Prod.fst := by
  intro fs
  induction fs with
  | nil =>
    intro _ k v hm
    exact absurd hm (List.not_mem_nil _)
  | cons p rest ih =>
    obtain ⟨k', v'⟩ := p
    intro h k v hm hd
    rw [List.map_cons, List.nodup_cons] at h
    rcases List.mem_cons.mp hm with heq | hmem
    · obtain ⟨rfl, rfl⟩ := Prod.mk.injEq .. ▸ heq
      simp only [slimObj, hd, if_true]
      intro hc
      exact h.1 ((slimObj_keys_sublist rest).subset hc)
    · by_cases hd' : dropField k' v'
      · simp only [slimObj, hd', if_true]
        exact ih h.2 k v hmem hd
      · simp only [slimObj, hd', if_false, List.map_cons]
        intro hc
        rcases List.mem_cons.mp hc with hkk | hkk
        · exact h.1 (hkk ▸ List.mem_map_of_mem Prod.fst hmem)
        · exact ih h.2 k v hmem hd hkk

/-- C8: in any mapping with distinct keys, every field whose value is null,
the empty string or the empty sequence is absent from the slimmed result,
while the surviving fields are exactly the fields no drop rule matches, each
with its recursively slimmed value, in the original encounter order. -/
theorem C8_null_empty_frame :
    ∀ fs : List (String × JValue), (fs.map Prod.fst).Nodup →
      (∀ k v, (k, v) ∈ fs →
        (isNull v || pyEqEmptyStr v || pyEqEmptyList v) = true →
        k ∉ (slimObj fs).map Prod.fst) ∧
      slimObj fs = (fs.filter fun kv => !dropField kv.1 kv.2).map
        (fun kv => (kv.1, slimResponse kv.2)) := by
  intro fs h
  refine ⟨?_, slimObj_eq_filter_map fs⟩
  intro k v hm hv
  have hd : dropField k v = true := by
    rcases Bool.or_eq_true_iff.mp hv with hv' | hv'
    · rcases Bool.or_eq_true_iff.mp hv' with hv'' | hv'' <;>
        simp [dropField, hv'']
    · simp [dropField, hv']
  exact keys_not_mem_slimObj fs h k v hm hd

/-- Witness for C8, on a mapping from the repository's tests: the null
`description`, empty `attendees` and empty-string `location` disappear while
`id` and `summary` survive in order. -/
theorem C8_null_empty_frame_witness :
    (("description" ∉ (slimObj [("id", JValue.str "e1"), ("description", JValue.null),
        ("location", JValue.str ""), ("attendees", JValue.arr []),
        ("summary", JValue.str "Test")]).map Prod.fst) ∧
      slimObj [("id", JValue.str "e1"), ("description", JValue.null),
        ("location", JValue.str ""), ("attendees", JValue.arr []),
        ("summary", JValue.str "Test")]
        = [("id", JValue.str "e1"), ("summary", JValue.str "Test")]) := by
  have h := C8_null_empty_frame
    [("id", JValue.str "e1"), ("description", JValue.null),
      ("location", JValue.str ""), ("attendees", JValue.arr []),
      ("summary", JValue.str "Test")] (by simp)
  refine ⟨h.1 "description" JValue.null (by simp) rfl, ?_⟩
  rw [h.2]
  rfl

/-- Slimming never produces a null from a non-null. -/
theorem isNull_slim (v : JValue) : isNull (slimResponse v) = isNull v := by
  cases v <;> rfl

/-- Slimming never produces an empty string from a non-empty one. -/
theorem pyEqEmptyStr_slim (v : JValue) : pyEqEmptyStr (slimResponse v) = pyEqEmptyStr v := by
  cases v <;> rfl

/-- Slimming never empties a sequence: `slimList` preserves length. -/
theorem pyEqEmptyList_slim (v : JValue) : pyEqEmptyList (slimResponse v) = pyEqEmptyList v := by
  cases v with
  | arr xs => cases xs <;> rfl
  | null => rfl
  | bool b => rfl
  | num n => rfl
  | str s => rfl
  | obj fs => rfl

/-- Slimming leaves numbers and booleans alone, so comparison with `0` is
unchanged. -/
theorem pyEqZero_slim (v : JValue) : pyEqZero (slimResponse v) = pyEqZero v := by
  cases v <;> rfl

/-- The one way slimming can destabilise a field: a `reminders` value that is
not the use-default sentinel but slims to it.  A field is *stable* when that
does not happen. -/
def fieldStable (k : String) (v : JValue) : Bool :=
  !(k == "reminders") || !(isDefaultReminderValue (slimResponse v)) ||
    isDefaultReminderValue v

mutual

/-- No mapping anywhere in the document has an unstable field (see
`fieldStable`): no `reminders` value turns into the use-default sentinel only
through slimming. -/
def noLatent : JValue → Bool
  | .arr xs => noLatentList xs
  | .obj fs => noLatentObj fs
  | .null => true
  | .bool _ => true
  | .num _ => true
  | .str _ => true

/-- `noLatent` over the elements of a sequence. -/
def noLatentList : List JValue → Bool
  | [] => true
  | x :: xs => noLatent x && noLatentList xs

/-- `noLatent` over the fields of a mapping. -/
def noLatentObj : List (String × JValue) → Bool
  | [] => true
  | (k, v) :: rest => fieldStable k v && noLatent v && noLatentObj rest

end

/-- A stable kept field stays kept after its value is slimmed. -/
theorem dropField_slim (k : String) (v : JValue) (hs : fieldStable k v = true)
    (h : dropField k v = false) : dropField k (slimResponse v) = false := by
  simp only [dropField, Bool.or_eq_false_iff, Bool.and_eq_false_iff] at h ⊢
  obtain ⟨⟨⟨⟨⟨⟨⟨⟨hnull, hstr⟩, hlist⟩, hetag⟩, hkind⟩, hical⟩, hrem⟩, hseq⟩, hcolor⟩ := h
  refine ⟨⟨⟨⟨⟨⟨⟨⟨?_, ?_⟩, ?_⟩, hetag⟩, hkind⟩, hical⟩, ?_⟩, ?_⟩, ?_⟩
  · rw [isNull_slim]; exact hnull
  · rw [pyEqEmptyStr_slim]; exact hstr
  · rw [pyEqEmptyList_slim]; exact hlist
  · rcases hrem with hrem | hrem
    · exact Or.inl hrem
    · by_cases hk : (k == "reminders") = true
      · right
        simp only [fieldStable, hk, hrem, Bool.not_true, Bool.false_or, Bool.or_false,
          Bool.not_eq_true'] at hs
        exact hs
      · exact Or.inl (by simpa using hk)
  · rcases hseq with hseq | hseq
    · exact Or.inl hseq
    · exact Or.inr (by rw [pyEqZero_slim]; exact hseq)
  · rcases hcolor with hcolor | hcolor
    · exact Or.inl hcolor
    · exact Or.inr (by rw [isNull_slim]; exact hcolor)

mutual

/-- Idempotence of the slimmer on documents with no latent reminders
sentinel. -/
theorem slim_idem (v : JValue) (h : noLatent v = true) :
    slimResponse (slimResponse v) = slimResponse v :=
  match v, h with
  | .null, _ => rfl
  | .bool _, _ => rfl
  | .num _, _ => rfl
  | .str _, _ => rfl
  | .arr xs, h => by
    have := slimList_idem xs (by simpa [noLatent] using h)
    simp [slimResponse, this]
  | .obj fs, h => by
    have := slimObj_idem fs (by simpa [noLatent] using h)
    simp [slimResponse, this]

/-- Idempotence of element-wise slimming. -/
theorem slimList_idem (xs : List JValue) (h : noLatentList xs = true) :
    slimList (slimList xs) = slimList xs :=
  match xs, h with
  | [], _ => rfl
  | x :: rest, h => by
    have h' : noLatent x = true ∧ noLatentList rest = true := by
      simpa [noLatentList, Bool.and_eq_true] using h
    show slimResponse (slimResponse x) :: slimList (slimList rest)
      = slimResponse x :: slimList rest
    rw [slim_idem x h'.1, slimList_idem rest h'.2]

/-- Idempotence of the field loop on stable field lists. -/
theorem slimObj_idem (fs : List (String × JValue)) (h : noLatentObj fs = true) :
    slimObj (slimObj fs) = slimObj fs :=
  match fs, h with
  | [], _ => rfl
  | (k, v) :: rest, h => by
    have h' : fieldStable k v = true ∧ noLatent v = true ∧ noLatentObj rest = true := by
      simpa [noLatentObj, Bool.and_eq_true, and_assoc] using h
    by_cases hd : dropField k v
    · simp only [slimObj, hd, if_true]
      exact slimObj_idem rest h'.2.2
    · have hkeep : dropField k (slimResponse v) = false :=
        dropField_slim k v h'.1 (by simpa using hd)
      simp only [slimObj, hd, if_false, hkeep, Bool.false_eq_true]
      rw [slim_idem v h'.2.1, slimObj_idem rest h'.2.2]

end

/-- C2 fails as stated: a `reminders` value that is not the use-default
sentinel can slim *to* the sentinel, which the second pass then drops, so the
slimmer is not idempotent. -/
theorem C2_counterexample :
    slimResponse (slimResponse (JValue.obj [("reminders",
        JValue.obj [("useDefault", JValue.bool true), ("etag", JValue.str "e")])]))
      ≠ slimResponse (JValue.obj [("reminders",
        JValue.obj [("useDefault", JValue.bool true), ("etag", JValue.str "e")])]) := by
  intro h
  have h1 : slimResponse (slimResponse (JValue.obj [("reminders",
      JValue.obj [("useDefault", JValue.bool true), ("etag", JValue.str "e")])]))
      = JValue.obj [] := rfl
  have h2 : slimResponse (JValue.obj [("reminders",
      JValue.obj [("useDefault", JValue.bool true), ("etag", JValue.str "e")])])
      = JValue.obj [("reminders", JValue.obj [("useDefault", JValue.bool true)])] := rfl
  rw [h1, h2] at h
  simp at h

/-- C2 (amended): the slimmer is idempotent on every Response Document in
which no `reminders` value becomes the use-default sentinel only through
slimming (`noLatent`); the counterexample above shows the restriction is
necessary. -/
theorem C2_slim_idempotent (x : JValue) (h : noLatent x = true) :
    slimResponse (slimResponse x) = slimResponse x :=
  slim_idem x h

/-- Witness for the amended C2 on a realistic event document. -/
theorem C2_slim_idempotent_witness :
    noLatent (JValue.obj [("id", JValue.str "e1"), ("etag", JValue.str "abc"),
        ("sequence", JValue.num 0), ("reminders", JValue.obj [("useDefault", JValue.bool true)]),
        ("summary", JValue.str "Standup")]) = true ∧
    slimResponse (slimResponse (JValue.obj [("id", JValue.str "e1"),
        ("etag", JValue.str "abc"), ("sequence", JValue.num 0),
        ("reminders", JValue.obj [("useDefault", JValue.bool true)]),
        ("summary", JValue.str "Standup")]))
      = slimResponse (JValue.obj [("id", JValue.str "e1"), ("etag", JValue.str "abc"),
          ("sequence", JValue.num 0),
          ("reminders", JValue.obj [("useDefault", JValue.bool true)]),
          ("summary", JValue.str "Standup")]) :=
  ⟨rfl, C2_slim_idempotent _ rfl⟩

/-- C1: for every tool operation and every failure at any stage — parameter
decode errors, datetime parse errors, or a failure raised by the remote
client — the operation returns the error envelope
`{"error": true, "message": str(exc)}` built by `_error_response`; since each
tool is a total function into documents, no exception propagates out. -/
theorem C1_error_envelope :
    (∀ client sd sh mr m, client sd sh mr = .error m →
      listCalendars client sd sh mr = errorResponse m) ∧
    (∀ client cal m, client cal = .error m →
      getCalendar client cal = errorResponse m) ∧
    (∀ client s d tz l m, client s d tz l = .error m →
      createCalendar client s d tz l = errorResponse m) ∧
    (∀ client cal m, client cal = .error m →
      deleteCalendar client cal = errorResponse m) ∧
    (∀ client cal m, client cal = .error m →
      clearCalendar client cal = errorResponse m) ∧
    (∀ client cal ev m, client cal ev = .error m →
      getEvent client cal ev = errorResponse m) ∧
    (∀ client cal tmin tmax mr q se ob e, parseDatetime tmin = .error e →
      listEvents client cal tmin tmax mr q se ob = errorResponse (errMessage e)) ∧
    (∀ client cal tmin tmax mr q se ob a e, parseDatetime tmin = .ok a →
      parseDatetime tmax = .error e →
      listEvents client cal tmin tmax mr q se ob = errorResponse (errMessage e)) ∧
    (∀ client cal tmin tmax mr q se ob a b m, parseDatetime tmin = .ok a →
      parseDatetime tmax = .ok b → client cal a b mr q se ob = .error m →
      listEvents client cal tmin tmax mr q se ob = errorResponse m) ∧
    (∀ jloads client s st en cal d l att tz e,
      parseJsonParam jloads att "attendees" = .error e →
      createEvent jloads client s st en cal d l att tz = errorResponse (errMessage e)) ∧
    (∀ jloads client s st en cal d l att tz pa e,
      parseJsonParam jloads att "attendees" = .ok pa →
      parseDatetime (some st) = .error e →
      createEvent jloads client s st en cal d l att tz = errorResponse (errMessage e)) ∧
    (∀ jloads client s st en cal d l att tz pa a e,
      parseJsonParam jloads att "attendees" = .ok pa →
      parseDatetime (some st) = .ok a → parseDatetime (some en) = .error e →
      createEvent jloads client s st en cal d l att tz = errorResponse (errMessage e)) ∧
    (∀ jloads client s st en cal d l att tz pa a b m,
      parseJsonParam jloads att "attendees" = .ok pa →
      parseDatetime (some st) = .ok a → parseDatetime (some en) = .ok b →
      client cal s d l a b pa tz = .error m →
      createEvent jloads client s st en cal d l att tz = errorResponse m) ∧
    (∀ jloads client cal ev body e, parseJsonParam jloads body "body" = .error e →
      updateEvent jloads client cal ev body = errorResponse (errMessage e)) ∧
    (∀ jloads client cal ev body pb m, parseJsonParam jloads body "body" = .ok pb →
      client cal ev pb = .error m →
      updateEvent jloads client cal ev body = errorResponse m) ∧
    (∀ jloads client cal ev s st en d l att tz e,
      parseJsonParam jloads att "attendees" = .error e →
      patchEvent jloads client cal ev s st en d l att tz = errorResponse (errMessage e)) ∧
    (∀ jloads client cal ev s st en d l att tz pa e,
      parseJsonParam jloads att "attendees" = .ok pa → parseDatetime st = .error e →
      patchEvent jloads client cal ev s st en d l att tz = errorResponse (errMessage e)) ∧
    (∀ jloads client cal ev s st en d l att tz pa a e,
      parseJsonParam jloads att "attendees" = .ok pa → parseDatetime st = .ok a →
      parseDatetime en = .error e →
      patchEvent jloads client cal ev s st en d l att tz = errorResponse (errMessage e)) ∧
    (∀ jloads client cal ev s st en d l att tz pa a b m,
      parseJsonParam jloads att "attendees" = .ok pa → parseDatetime st = .ok a →
      parseDatetime en = .ok b → client cal ev s d l a b pa tz = .error m →
      patchEvent jloads client cal ev s st en d l att tz = errorResponse m) ∧
    (∀ client cal ev su m, client cal ev su = .error m →
      deleteEvent client cal ev su = errorResponse m) ∧
    (∀ client cal ev dest m, client cal ev dest = .error m →
      moveEvent client cal ev dest = errorResponse m) ∧
    (∀ client cal ev tmin tmax mr e, parseDatetime tmin = .error e →
      listEventInstances client cal ev tmin tmax mr = errorResponse (errMessage e)) ∧
    (∀ client cal ev tmin tmax mr a e, parseDatetime tmin = .ok a →
      parseDatetime tmax = .error e →
      listEventInstances client cal ev tmin tmax mr = errorResponse (errMessage e)) ∧
    (∀ client cal ev tmin tmax mr a b m, parseDatetime tmin = .ok a →
      parseDatetime tmax = .ok b → client cal ev a b mr = .error m →
      listEventInstances client cal ev tmin tmax mr = errorResponse m) ∧
    (∀ jloads client ids tmin tmax tz g c e,
      parseJsonParam jloads ids "calendar_ids" = .error e →
      queryFreebusy jloads client ids tmin tmax tz g c = errorResponse (errMessage e)) ∧
    (∀ jloads client ids tmin tmax tz g c pi e,
      parseJsonParam jloads ids "calendar_ids" = .ok pi → parseInstant tmin true = .error e →
      queryFreebusy jloads client ids tmin tmax tz g c = errorResponse (errMessage e)) ∧
    (∀ jloads client ids tmin tmax tz g c pi a e,
      parseJsonParam jloads ids "calendar_ids" = .ok pi → parseInstant tmin true = .ok a →
      parseInstant tmax true = .error e →
      queryFreebusy jloads client ids tmin tmax tz g c = errorResponse (errMessage e)) ∧
    (∀ jloads client ids tmin tmax tz g c pi a b m,
      parseJsonParam jloads ids "calendar_ids" = .ok pi → parseInstant tmin true = .ok a →
      parseInstant tmax true = .ok b → client pi a b tz g c = .error m →
      queryFreebusy jloads client ids tmin tmax tz g c = errorResponse m) := by
  refine ⟨?_, ?_, ?_, ?_, ?_, ?_, ?_, ?_, ?_, ?_, ?_, ?_, ?_, ?_, ?_, ?_, ?_, ?_, ?_,
    ?_, ?_, ?_, ?_, ?_, ?_, ?_, ?_, ?_⟩
  · intro client sd sh mr m h; simp [listCalendars, h]
  · intro client cal m h; simp [getCalendar, h]
  · intro client s d tz l m h; simp [createCalendar, h]
  · intro client cal m h; simp [deleteCalendar, h]
  · intro client cal m h; simp [clearCalendar, h]
  · intro client cal ev m h; simp [getEvent, h]
  · intro client cal tmin tmax mr q se ob e h; simp [listEvents, h]
  · intro client cal tmin tmax mr q se ob a e h1 h2; simp [listEvents, h1, h2]
  · intro client cal tmin tmax mr q se ob a b m h1 h2 h3; simp [listEvents, h1, h2, h3]
  · intro jloads client s st en cal d l att tz e h; simp [createEvent, h]
  · intro jloads client s st en cal d l att tz pa e h1 h2; simp [createEvent, h1, h2]
  · intro jloads client s st en cal d l att tz pa a e h1 h2 h3
    simp [createEvent, h1, h2, h3]
  · intro jloads client s st en cal d l att tz pa a b m h1 h2 h3 h4
    simp [createEvent, h1, h2, h3, h4]
  · intro jloads client cal ev body e h; simp [updateEvent, h]
  · intro jloads client cal ev body pb m h1 h2; simp [updateEvent, h1, h2]
  · intro jloads client cal ev s st en d l att tz e h; simp [patchEvent, h]
  · intro jloads client cal ev s st en d l att tz pa e h1 h2; simp [patchEvent, h1, h2]
  · intro jloads client cal ev s st en d l att tz pa a e h1 h2 h3
    simp [patchEvent, h1, h2, h3]
  · intro jloads client cal ev s st en d l att tz pa a b m h1 h2 h3 h4
    simp [patchEvent, h1, h2, h3, h4]
  · intro client cal ev su m h; simp [deleteEvent, h]
  · intro client cal ev dest m h; simp [moveEvent, h]
  · intro client cal ev tmin tmax mr e h; simp [listEventInstances, h]
  · intro client cal ev tmin tmax mr a e h1 h2; simp [listEventInstances, h1, h2]
  · intro client cal ev tmin tmax mr a b m h1 h2 h3; simp [listEventInstances, h1, h2, h3]
  · intro jloads client ids tmin tmax tz g c e h; simp [queryFreebusy, h]
  · intro jloads client ids tmin tmax tz g c pi e h1 h2; simp [queryFreebusy, h1, h2]
  · intro jloads client ids tmin tmax tz g c pi a e h1 h2 h3
    simp [queryFreebusy, h1, h2, h3]
  · intro jloads client ids tmin tmax tz g c pi a b m h1 h2 h3 h4
    simp [queryFreebusy, h1, h2, h3, h4]

/-- Witness for C1: a remote failure with message `Auth expired` surfaces as
the error envelope, matching the spec's end-to-end scenario. -/
theorem C1_error_envelope_witness :
    getCalendar (fun _ => Except.error "Auth expired") "primary"
      = errorResponse "Auth expired" :=
  C1_error_envelope.2.1 (fun _ => Except.error "Auth expired") "primary" "Auth expired" rfl

/-- C6: every tool returns one of exactly two document shapes — a slimmed
success payload (or, for the delete/clear operations, their fixed success
mapping) or the error object `{"error": true, "message": <string>}` — and
nothing else; for the delete and clear operations the success document is
never equal to any error envelope, so the two shapes are mutually exclusive.
(The slimmed payloads come from the SDK's typed domain objects, which carry no
`error` field.) -/
theorem C6_envelope_shapes :
    (∀ m, errorResponse m = .obj [("error", .bool true), ("message", .str m)]) ∧
    (∀ client sd sh mr, (∃ m, listCalendars client sd sh mr = errorResponse m) ∨
      (∃ doc, client sd sh mr = .ok doc ∧ listCalendars client sd sh mr = slimResponse doc)) ∧
    (∀ client cal, (∃ m, getCalendar client cal = errorResponse m) ∨
      (∃ doc, client cal = .ok doc ∧ getCalendar client cal = slimResponse doc)) ∧
    (∀ client s d tz l, (∃ m, createCalendar client s d tz l = errorResponse m) ∨
      (∃ doc, client s d tz l = .ok doc ∧ createCalendar client s d tz l = slimResponse doc)) ∧
    (∀ client cal, (∃ m, deleteCalendar client cal = errorResponse m) ∨
      (client cal = .ok () ∧ deleteCalendar client cal
        = .obj [("success", .bool true), ("deleted", .str cal)])) ∧
    (∀ client cal, (∃ m, clearCalendar client cal = errorResponse m) ∨
      (client cal = .ok () ∧ clearCalendar client cal
        = .obj [("success", .bool true), ("cleared", .str cal)])) ∧
    (∀ client cal ev, (∃ m, getEvent client cal ev = errorResponse m) ∨
      (∃ doc, client cal ev = .ok doc ∧ getEvent client cal ev = slimResponse doc)) ∧
    (∀ client cal tmin tmax mr q se ob,
      (∃ m, listEvents client cal tmin tmax mr q se ob = errorResponse m) ∨
      (∃ doc, listEvents client cal tmin tmax mr q se ob = slimResponse doc)) ∧
    (∀ jloads client s st en cal d l att tz,
      (∃ m, createEvent jloads client s st en cal d l att tz = errorResponse m) ∨
      (∃ doc, createEvent jloads client s st en cal d l att tz = slimResponse doc)) ∧
    (∀ jloads client cal ev body,
      (∃ m, updateEvent jloads client cal ev body = errorResponse m) ∨
      (∃ doc, updateEvent jloads client cal ev body = slimResponse doc)) ∧
    (∀ jloads client cal ev s st en d l att tz,
      (∃ m, patchEvent jloads client cal ev s st en d l att tz = errorResponse m) ∨
      (∃ doc, patchEvent jloads client cal ev s st en d l att tz = slimResponse doc)) ∧
    (∀ client cal ev su, (∃ m, deleteEvent client cal ev su = errorResponse m) ∨
      (client cal ev su = .ok () ∧ deleteEvent client cal ev su
        = .obj [("success", .bool true), ("deleted", .str ev)])) ∧
    (∀ client cal ev dest, (∃ m, moveEvent client cal ev dest = errorResponse m) ∨
      (∃ doc, client cal ev dest = .ok doc ∧ moveEvent client cal ev dest
        = slimResponse doc)) ∧
    (∀ client cal ev tmin tmax mr,
      (∃ m, listEventInstances client cal ev tmin tmax mr = errorResponse m) ∨
      (∃ doc, listEventInstances client cal ev tmin tmax mr = slimResponse doc)) ∧
    (∀ jloads client ids tmin tmax tz g c,
      (∃ m, queryFreebusy jloads client ids tmin tmax tz g c = errorResponse m) ∨
      (∃ doc, queryFreebusy jloads client ids tmin tmax tz g c = slimResponse doc)) ∧
    (∀ id m, (JValue.obj [("success", .bool true), ("deleted", .str id)]
      ≠ errorResponse m)) ∧
    (∀ id m, (JValue.obj [("success", .bool true), ("cleared", .str id)]
      ≠ errorResponse m)) := by
  refine ⟨fun m => rfl, ?_, ?_, ?_, ?_, ?_, ?_, ?_, ?_, ?_, ?_, ?_, ?_, ?_, ?_, ?_, ?_⟩
  · intro client sd sh mr
    cases h : client sd sh mr with
    | error m => exact Or.inl ⟨m, by simp [listCalendars, h]⟩
    | ok doc => exact Or.inr ⟨doc, rfl, by simp [listCalendars, h]⟩
  · intro client cal
    cases h : client cal with
    | error m => exact Or.inl ⟨m, by simp [getCalendar, h]⟩
    | ok doc => exact Or.inr ⟨doc, rfl, by simp [getCalendar, h]⟩
  · intro client s d tz l
    cases h : client s d tz l with
    | error m => exact Or.inl ⟨m, by simp [createCalendar, h]⟩
    | ok doc => exact Or.inr ⟨doc, rfl, by simp [createCalendar, h]⟩
  · intro client cal
    cases h : client cal with
    | error m => exact Or.inl ⟨m, by simp [deleteCalendar, h]⟩
    | ok u => exact Or.inr ⟨by simp [h], by simp [deleteCalendar, h]⟩
  · intro client cal
    cases h : client cal with
    | error m => exact Or.inl ⟨m, by simp [clearCalendar, h]⟩
    | ok u => exact Or.inr ⟨by simp [h], by simp [clearCalendar, h]⟩
  · intro client cal ev
    cases h : client cal ev with
    | error m => exact Or.inl ⟨m, by simp [getEvent, h]⟩
    | ok doc => exact Or.inr ⟨doc, rfl, by simp [getEvent, h]⟩
  · intro client cal tmin tmax mr q se ob
    cases h1 : parseDatetime tmin with
    | error e => exact Or.inl ⟨errMessage e, by simp [listEvents, h1]⟩
    | ok a =>
      cases h2 : parseDatetime tmax with
      | error e => exact Or.inl ⟨errMessage e, by simp [listEvents, h1, h2]⟩
      | ok b =>
        cases h3 : client cal a b mr q se ob with
        | error m => exact Or.inl ⟨m, by simp [listEvents, h1, h2, h3]⟩
        | ok doc => exact Or.inr ⟨doc, by simp [listEvents, h1, h2, h3]⟩
  · intro jloads client s st en cal d l att tz
    cases h1 : parseJsonParam jloads att "attendees" with
    | error e => exact Or.inl ⟨errMessage e, by simp [createEvent, h1]⟩
    | ok pa =>
      cases h2 : parseDatetime (some st) with
      | error e => exact Or.inl ⟨errMessage e, by simp [createEvent, h1, h2]⟩
      | ok a =>
        cases h3 : parseDatetime (some en) with
        | error e => exact Or.inl ⟨errMessage e, by simp [createEvent, h1, h2, h3]⟩
        | ok b =>
          cases h4 : client cal s d l a b pa tz with
          | error m => exact Or.inl ⟨m, by simp [createEvent, h1, h2, h3, h4]⟩
          | ok doc => exact Or.inr ⟨doc, by simp [createEvent, h1, h2, h3, h4]⟩
  · intro jloads client cal ev body
    cases h1 : parseJsonParam jloads body "body" with
    | error e => exact Or.inl ⟨errMessage e, by simp [updateEvent, h1]⟩
    | ok pb =>
      cases h2 : client cal ev pb with
      | error m => exact Or.inl ⟨m, by simp [updateEvent, h1, h2]⟩
      | ok doc => exact Or.inr ⟨doc, by simp [updateEvent, h1, h2]⟩
  · intro jloads client cal ev s st en d l att tz
    cases h1 : parseJsonParam jloads att "attendees" with
    | error e => exact Or.inl ⟨errMessage e, by simp [patchEvent, h1]⟩
    | ok pa =>
      cases h2 : parseDatetime st with
      | error e => exact Or.inl ⟨errMessage e, by simp [patchEvent, h1, h2]⟩
      | ok a =>
        cases h3 : parseDatetime en with
        | error e => exact Or.inl ⟨errMessage e, by simp [patchEvent, h1, h2, h3]⟩
        | ok b =>
          cases h4 : client cal ev s d l a b pa tz with
          | error m => exact Or.inl ⟨m, by simp [patchEvent, h1, h2, h3, h4]⟩
          | ok doc => exact Or.inr ⟨doc, by simp [patchEvent, h1, h2, h3, h4]⟩
  · intro client cal ev su
    cases h : client cal ev su with
    | error m => exact Or.inl ⟨m, by simp [deleteEvent, h]⟩
    | ok u => exact Or.inr ⟨by simp [h], by simp [deleteEvent, h]⟩
  · intro client cal ev dest
    cases h : client cal ev dest with
    | error m => exact Or.inl ⟨m, by simp [moveEvent, h]⟩
    | ok doc => exact Or.inr ⟨doc, rfl, by simp [moveEvent, h]⟩
  · intro client cal ev tmin tmax mr
    cases h1 : parseDatetime tmin with
    | error e => exact Or.inl ⟨errMessage e, by simp [listEventInstances, h1]⟩
    | ok a =>
      cases h2 : parseDatetime tmax with
      | error e => exact Or.inl ⟨errMessage e, by simp [listEventInstances, h1, h2]⟩
      | ok b =>
        cases h3 : client cal ev a b mr with
        | error m => exact Or.inl ⟨m, by simp [listEventInstances, h1, h2, h3]⟩
        | ok doc => exact Or.inr ⟨doc, by simp [listEventInstances, h1, h2, h3]⟩
  · intro jloads client ids tmin tmax tz g c
    cases h1 : parseJsonParam jloads ids "calendar_ids" with
    | error e => exact Or.inl ⟨errMessage e, by simp [queryFreebusy, h1]⟩
    | ok pi =>
      cases h2 : parseInstant tmin true with
      | error e => exact Or.inl ⟨errMessage e, by simp [queryFreebusy, h1, h2]⟩
      | ok a =>
        cases h3 : parseInstant tmax true with
        | error e => exact Or.inl ⟨errMessage e, by simp [queryFreebusy, h1, h2, h3]⟩
        | ok b =>
          cases h4 : client pi a b tz g c with
          | error m => exact Or.inl ⟨m, by simp [queryFreebusy, h1, h2, h3, h4]⟩
          | ok doc => exact Or.inr ⟨doc, by simp [queryFreebusy, h1, h2, h3, h4]⟩
  · intro id m h
    rw [errorResponse] at h
    have := (JValue.obj.injEq _ _).mp h
    simp at this
  · intro id m h
    rw [errorResponse] at h
    have := (JValue.obj.injEq _ _).mp h
    simp at this
